import Mathlib

/-
Verification of the PyVNA facade (src/vna.py): a shallow embedding of the
`VNA` class.  Each Python method is translated to a Lean function from the
facade state to an `Except` of (returned value, trace of transport effects,
resulting facade state).  The pyvisa transport is modelled by a reply
function `String → String` carried in the open session handle; `write` and
`query` on a `None` handle raise `AttributeError`, as in Python.

Python dynamic values passed to the dual get-or-set methods are modelled by
`PyVal`: strings, ints, and floats whose value is an integer `n` with
`|n| < 10^16` (every float literal appearing in the claims, such as `1e9`,
is of that shape; Python renders such a float as the decimal digits of `n`
followed by `.0`).
-/

namespace PyVNA

/-- Effects observable at the transport boundary: a fire-and-forget write of
a command string, a query of a command string (whose reply is produced by the
session's reply function), and closing the underlying session. -/
inductive Eff where
  | write (cmd : String)
  | query (cmd : String)
  | closeSession
  deriving Repr, DecidableEq

/-- Values returned by a method call: the verbatim reply string of a query,
the (unmodelled) acknowledgment returned by a transport write, or Python
`None`. -/
inductive Ret where
  | reply (s : String)
  | written
  | pyNone
  deriving Repr, DecidableEq

/-- Local Python errors the facade can raise.  The only one reachable in
this code is the `AttributeError` from calling a method on `None` after
`close()`.  Transport-side failures are out of scope (the transport model
always replies). -/
inductive PyError where
  | attributeError
  deriving Repr, DecidableEq

/-- An open pyvisa session: modelled by its reply function for queries. -/
structure Instr where
  reply : String → String

/-- The facade state: the resource-manager handle `_rm` (opaque, modelled as
a `Nat`) and the session handle `_instr`, which is `some` session while open
and `none` after `close()`. -/
structure VNA where
  rm : Nat
  instr : Option Instr

/-- Result of running one method: a local error, or the returned value, the
list of transport effects in order, and the facade state afterwards. -/
def MRes := Except PyError (Ret × List Eff × VNA)

/-- Embedding of `self._instr.write(cmd)`: raises `AttributeError` when the
handle is `None`, otherwise emits one write effect. -/
def instrWrite (v : VNA) (cmd : String) : MRes :=
  match v.instr with
  | none => .error .attributeError
  | some _ => .ok (.written, [.write cmd], v)

/-- Embedding of `self._instr.query(cmd)`: raises `AttributeError` when the
handle is `None`, otherwise emits one query effect and returns the
transport's reply to `cmd` unmodified. -/
def instrQuery (v : VNA) (cmd : String) : MRes :=
  match v.instr with
  | none => .error .attributeError
  | some i => .ok (.reply (i.reply cmd), [.query cmd], v)

/-- Sequencing of two statements: the second runs only when the first did
not raise, its effects are appended, and the first value is discarded. -/
def andThen (r : MRes) (f : VNA → MRes) : MRes :=
  match r with
  | .error e => .error e
  | .ok (_, es, v) =>
    match f v with
    | .error e => .error e
    | .ok (r2, es2, v2) => .ok (r2, es ++ es2, v2)

/-- A Python method body with no `return` statement returns `None`. -/
def retNone : MRes → MRes
  | .error e => .error e
  | .ok (_, es, v) => .ok (.pyNone, es, v)

/-- Dynamic Python values that flow into the dual get-or-set parameters:
a `str`, an `int`, or a `float` whose value is the integer `n` (restricted
to `|n| < 10^16`, where Python's `str` renders it as `n` followed by
`.0`). -/
inductive PyVal where
  | pstr (s : String)
  | pint (n : Int)
  | pfloat (n : Int)
  deriving Repr, DecidableEq

/-- Embedding of `isinstance(x, str)`. -/
def pyIsStr : PyVal → Bool
  | .pstr _ => true
  | _ => false

/-- Embedding of Python `x == lit` for a string literal `lit`: equality
holds only when `x` is a string equal to `lit` (an int or float never
equals a str). -/
def pyEqLit : PyVal → String → Bool
  | .pstr t, s => t == s
  | _, _ => false

/-- Embedding of Python `str(x)` as used by f-string interpolation: a string
interpolates verbatim, an int as its decimal digits, and an integral float
`n` (with `|n| < 10^16`) as the digits of `n` followed by `.0`. -/
def pyStr : PyVal → String
  | .pstr s => s
  | .pint n => toString n
  | .pfloat n => toString n ++ ".0"

/-- Embedding of `close()`: calls `close` on the session (raising when it is
already `None`) and sets the handle to `None`.  `_rm` is untouched. -/
def close (v : VNA) : MRes :=
  match v.instr with
  | none => .error .attributeError
  | some _ => .ok (.pyNone, [.closeSession], { v with instr := none })

/-- Embedding of `active_channel`. -/
def active_channel (v : VNA) (ch : Int) : MRes :=
  retNone (instrWrite v (":DISP:WIND" ++ toString ch ++ ":ACT"))

/-- Embedding of `active_trace`. -/
def active_trace (v : VNA) (tr ch : Int) : MRes :=
  retNone (instrWrite v (":CALC" ++ toString ch ++ ":PAR" ++ toString tr ++ ":SEL"))

/-- Embedding of `trace_number`. -/
def trace_number (v : VNA) (num ch : Int) : MRes :=
  retNone (instrWrite v (":CALC" ++ toString ch ++ ":PAR:COUN " ++ toString num))

/-- Embedding of `freq_start`. -/
def freq_start (v : VNA) (freq : PyVal) (ch : Int) : MRes :=
  if pyIsStr freq && pyEqLit freq "?" then
    instrQuery v (":SENS" ++ toString ch ++ ":FREQ:STAR?")
  else
    instrWrite v (":SENS" ++ toString ch ++ ":FREQ:STAR " ++ pyStr freq)

/-- Embedding of `freq_stop`.  Note the source's query branch sends
`:SENS{ch}:FREQ:STAR?`, not `:SENS{ch}:FREQ:STOP?`. -/
def freq_stop (v : VNA) (freq : PyVal) (ch : Int) : MRes :=
  if pyIsStr freq && pyEqLit freq "?" then
    instrQuery v (":SENS" ++ toString ch ++ ":FREQ:STAR?")
  else
    instrWrite v (":SENS" ++ toString ch ++ ":FREQ:STOP " ++ pyStr freq)

/-- Embedding of `freq_center`. -/
def freq_center (v : VNA) (freq : PyVal) (ch : Int) : MRes :=
  if pyIsStr freq && pyEqLit freq "?" then
    instrQuery v (":SENS" ++ toString ch ++ ":FREQ:CENT?")
  else
    instrWrite v (":SENS" ++ toString ch ++ ":FREQ:CENT " ++ pyStr freq)

/-- Embedding of `freq_span`.  Note the source's query branch hardcodes
channel 1: `f":SENS1:FREQ:SPAN?"`. -/
def freq_span (v : VNA) (freq : PyVal) (ch : Int) : MRes :=
  if pyIsStr freq && pyEqLit freq "?" then
    instrQuery v ":SENS1:FREQ:SPAN?"
  else
    instrWrite v (":SENS" ++ toString ch ++ ":FREQ:SPAN " ++ pyStr freq)

/-- Embedding of `power`. -/
def power (v : VNA) (pw : PyVal) (ch : Int) : MRes :=
  if pyIsStr pw && pyEqLit pw "?" then
    instrQuery v (":SOUR" ++ toString ch ++ ":POW?")
  else
    instrWrite v (":SOUR" ++ toString ch ++ ":POW " ++ pyStr pw)

/-- Embedding of `points`. -/
def points (v : VNA) (point : PyVal) (ch : Int) : MRes :=
  if pyIsStr point && pyEqLit point "?" then
    instrQuery v (":SENS" ++ toString ch ++ ":SWE:POIN?")
  else
    instrWrite v (":SENS" ++ toString ch ++ ":SWE:POIN " ++ pyStr point)

/-- Embedding of `sweep_type` (guard is a plain `typ == "?"`). -/
def sweep_type (v : VNA) (typ : PyVal) (ch : Int) : MRes :=
  if pyEqLit typ "?" then
    instrQuery v (":SENS" ++ toString ch ++ ":SWE:TYPE?")
  else
    instrWrite v (":SENS" ++ toString ch ++ ":SWE:TYPE " ++ pyStr typ)

/-- Embedding of `segm_data`. -/
def segm_data (v : VNA) (data : PyVal) (ch : Int) : MRes :=
  if pyEqLit data "?" then
    instrQuery v (":SENS" ++ toString ch ++ ":SEGM:DATA?")
  else
    instrWrite v (":SENS" ++ toString ch ++ ":SEGM:DATA " ++ pyStr data)

/-- Embedding of `bandwidth`. -/
def bandwidth (v : VNA) (bw : PyVal) (ch : Int) : MRes :=
  if pyIsStr bw && pyEqLit bw "?" then
    instrQuery v (":SENS" ++ toString ch ++ ":BAND?")
  else
    instrWrite v (":SENS" ++ toString ch ++ ":BAND " ++ pyStr bw)

/-- Embedding of `trace_num`. -/
def trace_num (v : VNA) (num : PyVal) (ch : Int) : MRes :=
  if pyIsStr num && pyEqLit num "?" then
    instrQuery v (":CALC" ++ toString ch ++ ":PAR:COUN?")
  else
    instrWrite v (":CALC" ++ toString ch ++ ":PAR:COUN " ++ pyStr num)

/-- Embedding of `window_layout`.  Note the source's query string is not an
f-string, so the literal characters `{ch}` are sent. -/
def window_layout (v : VNA) (layout : PyVal) (ch : Int) : MRes :=
  if pyEqLit layout "?" then
    instrQuery v ":DISP:WIND\x7bch\x7d:SPL?"
  else
    instrWrite v (":DISP:WIND" ++ toString ch ++ ":SPL " ++ pyStr layout)

/-- Embedding of `parameter`. -/
def parameter (v : VNA) (para : PyVal) (tr ch : Int) : MRes :=
  if pyEqLit para "?" then
    instrQuery v (":CALC" ++ toString ch ++ ":PAR" ++ toString tr ++ ":DEF?")
  else
    instrWrite v (":CALC" ++ toString ch ++ ":PAR" ++ toString tr ++ ":DEF " ++ pyStr para)

/-- Embedding of `format`. -/
def format (v : VNA) (form : PyVal) (tr ch : Int) : MRes :=
  if pyEqLit form "?" then
    instrQuery v (":CALC" ++ toString ch ++ ":TRAC" ++ toString tr ++ ":FORM?")
  else
    instrWrite v (":CALC" ++ toString ch ++ ":TRAC" ++ toString tr ++ ":FORM " ++ pyStr form)

/-- Embedding of `cal_kit` (guard is a plain `kit == "?"`). -/
def cal_kit (v : VNA) (kit : PyVal) (ch : Int) : MRes :=
  if pyEqLit kit "?" then
    instrQuery v (":SENS" ++ toString ch ++ ":CORR:COLL:CKIT?")
  else
    instrWrite v (":SENS" ++ toString ch ++ ":CORR:COLL:CKIT " ++ pyStr kit)

/-- Embedding of `cal_meth`. -/
def cal_meth (v : VNA) (ports : PyVal) (ch : Int) : MRes :=
  instrWrite v (":SENS" ++ toString ch ++ ":CORR:COLL:METH:SOLT2 " ++ pyStr ports)

/-- Embedding of `cal_open`: the triggering write followed by the `*OPC?`
poll. -/
def cal_open (v : VNA) (port ch : Int) : MRes :=
  retNone (andThen
    (instrWrite v (":SENS" ++ toString ch ++ ":CORR:COLL:OPEN " ++ toString port))
    (fun w => instrQuery w "*OPC?"))

/-- Embedding of `cal_shor`. -/
def cal_shor (v : VNA) (port ch : Int) : MRes :=
  retNone (andThen
    (instrWrite v (":SENS" ++ toString ch ++ ":CORR:COLL:SHOR " ++ toString port))
    (fun w => instrQuery w "*OPC?"))

/-- Embedding of `cal_load`. -/
def cal_load (v : VNA) (port ch : Int) : MRes :=
  retNone (andThen
    (instrWrite v (":SENS" ++ toString ch ++ ":CORR:COLL:LOAD " ++ toString port))
    (fun w => instrQuery w "*OPC?"))

/-- Embedding of the generic `cal`. -/
def cal (v : VNA) (typ : PyVal) (port ch : Int) : MRes :=
  retNone (andThen
    (instrWrite v (":SENS" ++ toString ch ++ ":CORR:COLL:" ++ pyStr typ ++ " " ++ toString port))
    (fun w => instrQuery w "*OPC?"))

/-- Embedding of `cal_thru`: two writes, then the `*OPC?` poll. -/
def cal_thru (v : VNA) (port1 port2 ch : Int) : MRes :=
  retNone (andThen
    (instrWrite v
      (":SENS" ++ toString ch ++ ":CORR:COLL:THRU " ++ toString port1 ++ "," ++ toString port2))
    (fun w => andThen
      (instrWrite w
        (":SENS" ++ toString ch ++ ":CORR:COLL:THRU " ++ toString port2 ++ "," ++ toString port1))
      (fun u => instrQuery u "*OPC?")))

/-- Embedding of `cal_done`: a single write, no completion poll. -/
def cal_done (v : VNA) (ch : Int) : MRes :=
  retNone (instrWrite v (":SENS" ++ toString ch ++ ":CORR:COLL:SAVE"))

/-- Embedding of `save_type`. -/
def save_type (v : VNA) (stype : PyVal) : MRes :=
  if pyEqLit stype "?" then
    instrQuery v ":MMEM:STOR:STYP?"
  else
    instrWrite v (":MMEM:STOR:STYP " ++ pyStr stype)

/-- Embedding of `mdir` (the argument is wrapped in single quotes). -/
def mdir (v : VNA) (folder : PyVal) : MRes :=
  retNone (instrWrite v (":MMEM:MDIR \x27" ++ pyStr folder ++ "\x27"))

/-- Embedding of `stor_stat`. -/
def stor_stat (v : VNA) (file : PyVal) : MRes :=
  retNone (instrWrite v (":MMEM:STOR \x27" ++ pyStr file ++ "\x27"))

/-- Embedding of `load_stat`. -/
def load_stat (v : VNA) (file : PyVal) : MRes :=
  retNone (instrWrite v (":MMEM:LOAD \x27" ++ pyStr file ++ "\x27"))

/-- Embedding of `calc_sdat`. -/
def calc_sdat (v : VNA) (tr ch : Int) : MRes :=
  instrQuery v (":CALC" ++ toString ch ++ ":TRAC" ++ toString tr ++ ":DATA:SDAT?")

/-- Embedding of `calc_fdat`. -/
def calc_fdat (v : VNA) (tr ch : Int) : MRes :=
  instrQuery v (":CALC" ++ toString ch ++ ":TRAC" ++ toString tr ++ ":DATA:FDAT?")

/-- Embedding of `calc_mfd`. -/
def calc_mfd (v : VNA) (trs : PyVal) (ch : Int) : MRes :=
  instrQuery v (":CALC" ++ toString ch ++ ":TRAC:DATA:MFD? \x27" ++ pyStr trs ++ "\x27")

/-- Embedding of `init_cont`. -/
def init_cont (v : VNA) (status : PyVal) (ch : Int) : MRes :=
  retNone (instrWrite v (":INIT" ++ toString ch ++ ":CONT " ++ pyStr status))

/-- Embedding of `trigger`. -/
def trigger (v : VNA) (ch : Int) : MRes :=
  retNone (instrWrite v (":INIT" ++ toString ch))

/-- Embedding of `limit_display`. -/
def limit_display (v : VNA) (state : PyVal) (tr ch : Int) : MRes :=
  if pyEqLit state "?" then
    instrQuery v (":CALC" ++ toString ch ++ ":TRAC" ++ toString tr ++ ":LIM:DISP?")
  else
    instrWrite v (":CALC" ++ toString ch ++ ":TRAC" ++ toString tr ++ ":LIM:DISP " ++ pyStr state)

/-- Embedding of `limit_data`. -/
def limit_data (v : VNA) (data : PyVal) (tr ch : Int) : MRes :=
  if pyEqLit data "?" then
    instrQuery v (":CALC" ++ toString ch ++ ":TRAC" ++ toString tr ++ ":LIM:DATA?")
  else
    instrWrite v (":CALC" ++ toString ch ++ ":TRAC" ++ toString tr ++ ":LIM:DATA " ++ pyStr data)

/-- Embedding of `preset`. -/
def preset (v : VNA) : MRes :=
  retNone (instrWrite v ":SYST:PRES")

/-- Trace of transport effects of a method call (empty when it raised). -/
def traceOf : MRes → List Eff
  | .error _ => []
  | .ok (_, es, _) => es

/-- Frame property: the call left the facade state exactly as it was
(vacuously true when the call raised before returning). -/
def preservesState (r : MRes) (v : VNA) : Prop :=
  match r with
  | .error _ => True
  | .ok (_, _, w) => w = v

theorem instrWrite_closed (rm : Nat) (c : String) :
    instrWrite ⟨rm, none⟩ c = .error .attributeError := rfl

theorem instrQuery_closed (rm : Nat) (c : String) :
    instrQuery ⟨rm, none⟩ c = .error .attributeError := rfl

theorem instrWrite_preserves (v : VNA) (c : String) : preservesState (instrWrite v c) v := by
  obtain ⟨rm, o⟩ := v
  cases o <;> simp [instrWrite, preservesState]

theorem instrQuery_preserves (v : VNA) (c : String) : preservesState (instrQuery v c) v := by
  obtain ⟨rm, o⟩ := v
  cases o <;> simp [instrQuery, preservesState]

theorem retNone_preserves (r : MRes) (v : VNA) (h : preservesState r v) :
    preservesState (retNone r) v := by
  cases r with
  | error e => simp [retNone, preservesState]
  | ok t =>
    obtain ⟨a, es, w⟩ := t
    simpa [retNone, preservesState] using h

theorem andThen_preserves (r : MRes) (f : VNA → MRes) (v : VNA)
    (h1 : preservesState r v) (h2 : ∀ w, preservesState (f w) w) :
    preservesState (andThen r f) v := by
  cases r with
  | error e => simp [andThen, preservesState]
  | ok t =>
    obtain ⟨a, es, w⟩ := t
    have hw : w = v := h1
    subst hw
    have hf := h2 w
    cases hfv : f w with
    | error e => simp [andThen, hfv, preservesState]
    | ok t2 =>
      obtain ⟨a2, es2, w2⟩ := t2
      have hw2 : w2 = w := by rw [hfv] at hf; exact hf
      simp [andThen, hfv, preservesState, hw2]

/-- C1 (code_bug evidence): `freq_stop("?", ch=1)` issues the query
`:SENS1:FREQ:STAR?` — the start-frequency command, not the stop-frequency
command `:SENS1:FREQ:STOP?` that the operation's own set branch and
docstring use — so the query branch is not the operation's own SCPI command
suffixed with `?`. -/
theorem freq_stop_query_uses_star_not_stop (rm : Nat) (i : Instr) :
    freq_stop ⟨rm, some i⟩ (.pstr "?") 1 =
      .ok (.reply (i.reply ":SENS1:FREQ:STAR?"), [.query ":SENS1:FREQ:STAR?"],
           ⟨rm, some i⟩) ∧
    (":SENS1:FREQ:STAR?" : String) ≠ ":SENS1:FREQ:STOP?" :=
  ⟨rfl, by decide⟩

/-- C2 (code_bug evidence): the channel index is not interpolated in two
query branches.  `freq_span("?", ch=2)` queries the hardcoded
`:SENS1:FREQ:SPAN?` rather than `:SENS2:FREQ:SPAN?`, and
`window_layout("?", ch=2)` sends the literal characters `{ch}` (the source
string is not an f-string) rather than substituting `2`. -/
theorem chan_index_not_interpolated (rm : Nat) (i : Instr) :
    freq_span ⟨rm, some i⟩ (.pstr "?") 2 =
      .ok (.reply (i.reply ":SENS1:FREQ:SPAN?"), [.query ":SENS1:FREQ:SPAN?"],
           ⟨rm, some i⟩) ∧
    (":SENS1:FREQ:SPAN?" : String) ≠ ":SENS2:FREQ:SPAN?" ∧
    window_layout ⟨rm, some i⟩ (.pstr "?") 2 =
      .ok (.reply (i.reply ":DISP:WIND\x7bch\x7d:SPL?"),
           [.query ":DISP:WIND\x7bch\x7d:SPL?"], ⟨rm, some i⟩) ∧
    (":DISP:WIND\x7bch\x7d:SPL?" : String) ≠ ":DISP:WIND2:SPL?" :=
  ⟨rfl, by decide, rfl, by decide⟩

/-- C3: every calibration-step method (`cal_open`, `cal_shor`, `cal_load`,
`cal_thru`, and the generic `cal`) produces a trace consisting of exactly
its triggering write(s) immediately followed by the query `*OPC?`, with no
other command in between, and then returns. -/
theorem cal_steps_poll_opc (rm : Nat) (i : Instr) (typ : PyVal) (port port1 port2 ch : Int) :
    cal_open ⟨rm, some i⟩ port ch =
      .ok (.pyNone,
        [.write (":SENS" ++ toString ch ++ ":CORR:COLL:OPEN " ++ toString port),
         .query "*OPC?"], ⟨rm, some i⟩) ∧
    cal_shor ⟨rm, some i⟩ port ch =
      .ok (.pyNone,
        [.write (":SENS" ++ toString ch ++ ":CORR:COLL:SHOR " ++ toString port),
         .query "*OPC?"], ⟨rm, some i⟩) ∧
    cal_load ⟨rm, some i⟩ port ch =
      .ok (.pyNone,
        [.write (":SENS" ++ toString ch ++ ":CORR:COLL:LOAD " ++ toString port),
         .query "*OPC?"], ⟨rm, some i⟩) ∧
    cal ⟨rm, some i⟩ typ port ch =
      .ok (.pyNone,
        [.write (":SENS" ++ toString ch ++ ":CORR:COLL:" ++ pyStr typ ++ " " ++ toString port),
         .query "*OPC?"], ⟨rm, some i⟩) ∧
    cal_thru ⟨rm, some i⟩ port1 port2 ch =
      .ok (.pyNone,
        [.write (":SENS" ++ toString ch ++ ":CORR:COLL:THRU "
                   ++ toString port1 ++ "," ++ toString port2),
         .write (":SENS" ++ toString ch ++ ":CORR:COLL:THRU "
                   ++ toString port2 ++ "," ++ toString port1),
         .query "*OPC?"], ⟨rm, some i⟩) :=
  ⟨rfl, rfl, rfl, rfl, rfl⟩

/-- C4: `cal_thru(1, 2)` on channel 1 issues exactly the two writes
`:SENS1:CORR:COLL:THRU 1,2` then `:SENS1:CORR:COLL:THRU 2,1`, in that
order, followed by the completion poll query `*OPC?`. -/
theorem cal_thru_two_writes_then_opc (rm : Nat) (i : Instr) :
    cal_thru ⟨rm, some i⟩ 1 2 1 =
      .ok (.pyNone,
        [.write ":SENS1:CORR:COLL:THRU 1,2",
         .write ":SENS1:CORR:COLL:THRU 2,1",
         .query "*OPC?"], ⟨rm, some i⟩) := rfl

/-- C5 (counterexample): `freq_start(1e9, ch=2)` does not write
`:SENS2:FREQ:STAR 1000000000` — Python renders the float `1e9` as
`1000000000.0`, so the single write carries `:SENS2:FREQ:STAR 1000000000.0`. -/
theorem freq_start_1e9_counterexample :
    traceOf (freq_start ⟨0, some ⟨fun _ => ""⟩⟩ (.pfloat 1000000000) 2) =
      [.write ":SENS2:FREQ:STAR 1000000000.0"] ∧
    traceOf (freq_start ⟨0, some ⟨fun _ => ""⟩⟩ (.pfloat 1000000000) 2) ≠
      [.write ":SENS2:FREQ:STAR 1000000000"] :=
  ⟨rfl, by decide⟩

/-- C5 (amended): calling `freq_start(1e9, ch=2)` issues a single write
whose command string is exactly `:SENS2:FREQ:STAR 1000000000.0`, and
performs no query. -/
theorem freq_start_1e9_single_write (rm : Nat) (i : Instr) :
    freq_start ⟨rm, some i⟩ (.pfloat 1000000000) 2 =
      .ok (.written, [.write ":SENS2:FREQ:STAR 1000000000.0"], ⟨rm, some i⟩) := rfl

/-- C10: `cal_done(ch)` issues exactly one write,
`:SENS{ch}:CORR:COLL:SAVE` with the channel substituted, and its trace
contains no query at all — in particular no `*OPC?` completion poll. -/
theorem cal_done_writes_save_no_poll (rm : Nat) (i : Instr) (ch : Int) :
    cal_done ⟨rm, some i⟩ ch =
      .ok (.pyNone, [.write (":SENS" ++ toString ch ++ ":CORR:COLL:SAVE")],
           ⟨rm, some i⟩) := rfl

/-- C6: `close()` on an open facade clears the session handle to `None`
(leaving `_rm` in place), and afterwards every operation on the facade —
including a second `close()` — raises `AttributeError` before sending any
command. -/
theorem close_clears_handle_then_ops_raise (rm : Nat) (i : Instr) (x : PyVal)
    (n tr ch p1 p2 : Int) :
    close ⟨rm, some i⟩ = .ok (.pyNone, [.closeSession], ⟨rm, none⟩) ∧
    close ⟨rm, none⟩ = .error .attributeError ∧
    active_channel ⟨rm, none⟩ ch = .error .attributeError ∧
    active_trace ⟨rm, none⟩ tr ch = .error .attributeError ∧
    trace_number ⟨rm, none⟩ n ch = .error .attributeError ∧
    freq_start ⟨rm, none⟩ x ch = .error .attributeError ∧
    freq_stop ⟨rm, none⟩ x ch = .error .attributeError ∧
    freq_center ⟨rm, none⟩ x ch = .error .attributeError ∧
    freq_span ⟨rm, none⟩ x ch = .error .attributeError ∧
    power ⟨rm, none⟩ x ch = .error .attributeError ∧
    points ⟨rm, none⟩ x ch = .error .attributeError ∧
    sweep_type ⟨rm, none⟩ x ch = .error .attributeError ∧
    segm_data ⟨rm, none⟩ x ch = .error .attributeError ∧
    bandwidth ⟨rm, none⟩ x ch = .error .attributeError ∧
    trace_num ⟨rm, none⟩ x ch = .error .attributeError ∧
    window_layout ⟨rm, none⟩ x ch = .error .attributeError ∧
    parameter ⟨rm, none⟩ x tr ch = .error .attributeError ∧
    format ⟨rm, none⟩ x tr ch = .error .attributeError ∧
    cal_kit ⟨rm, none⟩ x ch = .error .attributeError ∧
    cal_meth ⟨rm, none⟩ x ch = .error .attributeError ∧
    cal_open ⟨rm, none⟩ p1 ch = .error .attributeError ∧
    cal_shor ⟨rm, none⟩ p1 ch = .error .attributeError ∧
    cal_load ⟨rm, none⟩ p1 ch = .error .attributeError ∧
    cal ⟨rm, none⟩ x p1 ch = .error .attributeError ∧
    cal_thru ⟨rm, none⟩ p1 p2 ch = .error .attributeError ∧
    cal_done ⟨rm, none⟩ ch = .error .attributeError ∧
    save_type ⟨rm, none⟩ x = .error .attributeError ∧
    mdir ⟨rm, none⟩ x = .error .attributeError ∧
    stor_stat ⟨rm, none⟩ x = .error .attributeError ∧
    load_stat ⟨rm, none⟩ x = .error .attributeError ∧
    calc_sdat ⟨rm, none⟩ tr ch = .error .attributeError ∧
    calc_fdat ⟨rm, none⟩ tr ch = .error .attributeError ∧
    calc_mfd ⟨rm, none⟩ x ch = .error .attributeError ∧
    init_cont ⟨rm, none⟩ x ch = .error .attributeError ∧
    trigger ⟨rm, none⟩ ch = .error .attributeError ∧
    limit_display ⟨rm, none⟩ x tr ch = .error .attributeError ∧
    limit_data ⟨rm, none⟩ x tr ch = .error .attributeError ∧
    preset ⟨rm, none⟩ = .error .attributeError := by
  simp only [close, active_channel, active_trace, trace_number, freq_start, freq_stop,
    freq_center, freq_span, power, points, sweep_type, segm_data, bandwidth, trace_num,
    window_layout, parameter, format, cal_kit, cal_meth, cal_open, cal_shor, cal_load, cal,
    cal_thru, cal_done, save_type, mdir, stor_stat, load_stat, calc_sdat, calc_fdat, calc_mfd,
    init_cont, trigger, limit_display, limit_data, preset, instrWrite_closed, instrQuery_closed,
    retNone, andThen, ite_self, and_self]

/-- C7: no input validation is performed.  For every value `x` that does
not select the query branch (any value not equal, as a Python string, to
`"?"` — including malformed ones such as an int passed where a keyword
string is documented), every get-or-set operation forwards `str(x)`
verbatim into the written set command and raises no local error. -/
theorem set_branch_forwards_value_verbatim (rm : Nat) (i : Instr) (x : PyVal)
    (tr ch : Int) (h : pyEqLit x "?" = false) :
    freq_start ⟨rm, some i⟩ x ch =
      .ok (.written, [.write (":SENS" ++ toString ch ++ ":FREQ:STAR " ++ pyStr x)],
           ⟨rm, some i⟩) ∧
    freq_stop ⟨rm, some i⟩ x ch =
      .ok (.written, [.write (":SENS" ++ toString ch ++ ":FREQ:STOP " ++ pyStr x)],
           ⟨rm, some i⟩) ∧
    freq_center ⟨rm, some i⟩ x ch =
      .ok (.written, [.write (":SENS" ++ toString ch ++ ":FREQ:CENT " ++ pyStr x)],
           ⟨rm, some i⟩) ∧
    freq_span ⟨rm, some i⟩ x ch =
      .ok (.written, [.write (":SENS" ++ toString ch ++ ":FREQ:SPAN " ++ pyStr x)],
           ⟨rm, some i⟩) ∧
    power ⟨rm, some i⟩ x ch =
      .ok (.written, [.write (":SOUR" ++ toString ch ++ ":POW " ++ pyStr x)],
           ⟨rm, some i⟩) ∧
    points ⟨rm, some i⟩ x ch =
      .ok (.written, [.write (":SENS" ++ toString ch ++ ":SWE:POIN " ++ pyStr x)],
           ⟨rm, some i⟩) ∧
    sweep_type ⟨rm, some i⟩ x ch =
      .ok (.written, [.write (":SENS" ++ toString ch ++ ":SWE:TYPE " ++ pyStr x)],
           ⟨rm, some i⟩) ∧
    segm_data ⟨rm, some i⟩ x ch =
      .ok (.written, [.write (":SENS" ++ toString ch ++ ":SEGM:DATA " ++ pyStr x)],
           ⟨rm, some i⟩) ∧
    bandwidth ⟨rm, some i⟩ x ch =
      .ok (.written, [.write (":SENS" ++ toString ch ++ ":BAND " ++ pyStr x)],
           ⟨rm, some i⟩) ∧
    trace_num ⟨rm, some i⟩ x ch =
      .ok (.written, [.write (":CALC" ++ toString ch ++ ":PAR:COUN " ++ pyStr x)],
           ⟨rm, some i⟩) ∧
    window_layout ⟨rm, some i⟩ x ch =
      .ok (.written, [.write (":DISP:WIND" ++ toString ch ++ ":SPL " ++ pyStr x)],
           ⟨rm, some i⟩) ∧
    parameter ⟨rm, some i⟩ x tr ch =
      .ok (.written,
        [.write (":CALC" ++ toString ch ++ ":PAR" ++ toString tr ++ ":DEF " ++ pyStr x)],
        ⟨rm, some i⟩) ∧
    format ⟨rm, some i⟩ x tr ch =
      .ok (.written,
        [.write (":CALC" ++ toString ch ++ ":TRAC" ++ toString tr ++ ":FORM " ++ pyStr x)],
        ⟨rm, some i⟩) ∧
    cal_kit ⟨rm, some i⟩ x ch =
      .ok (.written, [.write (":SENS" ++ toString ch ++ ":CORR:COLL:CKIT " ++ pyStr x)],
           ⟨rm, some i⟩) ∧
    save_type ⟨rm, some i⟩ x =
      .ok (.written, [.write (":MMEM:STOR:STYP " ++ pyStr x)], ⟨rm, some i⟩) ∧
    limit_display ⟨rm, some i⟩ x tr ch =
      .ok (.written,
        [.write (":CALC" ++ toString ch ++ ":TRAC" ++ toString tr ++ ":LIM:DISP " ++ pyStr x)],
        ⟨rm, some i⟩) ∧
    limit_data ⟨rm, some i⟩ x tr ch =
      .ok (.written,
        [.write (":CALC" ++ toString ch ++ ":TRAC" ++ toString tr ++ ":LIM:DATA " ++ pyStr x)],
        ⟨rm, some i⟩) := by
  simp [freq_start, freq_stop, freq_center, freq_span, power, points, sweep_type,
    segm_data, bandwidth, trace_num, window_layout, parameter, format, cal_kit, save_type,
    limit_display, limit_data, h, instrWrite]

/-- C7 witness: passing the int `999999` (a malformed keyword for
`sweep_type`) takes the set branch and forwards it verbatim. -/
theorem set_branch_forwards_value_verbatim_witness :
    pyEqLit (.pint 999999) "?" = false ∧
    freq_start ⟨0, some ⟨fun _ => "OK"⟩⟩ (.pint 999999) 1 =
      .ok (.written, [.write ":SENS1:FREQ:STAR 999999"], ⟨0, some ⟨fun _ => "OK"⟩⟩) :=
  ⟨by decide,
   (set_branch_forwards_value_verbatim 0 ⟨fun _ => "OK"⟩ (.pint 999999) 1 1 (by decide)).1⟩

theorem ite_query_write_preserves (g : Bool) (v : VNA) (c1 c2 : String) :
    preservesState (if g = true then instrQuery v c1 else instrWrite v c2) v := by
  cases g
  · simpa using instrWrite_preserves v c2
  · simpa using instrQuery_preserves v c1

theorem write_retNone_preserves (v : VNA) (c : String) :
    preservesState (retNone (instrWrite v c)) v :=
  retNone_preserves _ _ (instrWrite_preserves _ _)

theorem calStep_preserves (v : VNA) (c : String) :
    preservesState (retNone (andThen (instrWrite v c) (fun w => instrQuery w "*OPC?"))) v :=
  retNone_preserves _ _
    (andThen_preserves _ _ _ (instrWrite_preserves _ _) (fun w => instrQuery_preserves w _))

theorem calThru_preserves (v : VNA) (c1 c2 : String) :
    preservesState (retNone (andThen (instrWrite v c1)
      (fun w => andThen (instrWrite w c2) (fun u => instrQuery u "*OPC?")))) v :=
  retNone_preserves _ _
    (andThen_preserves _ _ _ (instrWrite_preserves _ _)
      (fun w => andThen_preserves _ _ _ (instrWrite_preserves w _)
        (fun u => instrQuery_preserves u _)))

/-- C8: every public operation other than the constructor and `close`
leaves the facade's fields `_rm` and `_instr` exactly as they were (the
only mutations are the transport effects in the trace), and `close` on an
open facade mutates only the session handle field, leaving `_rm` intact. -/
theorem methods_preserve_facade_state (v : VNA) (x : PyVal) (n tr ch p1 p2 : Int)
    (rm : Nat) (i : Instr) :
    preservesState (active_channel v ch) v ∧
    preservesState (active_trace v tr ch) v ∧
    preservesState (trace_number v n ch) v ∧
    preservesState (freq_start v x ch) v ∧
    preservesState (freq_stop v x ch) v ∧
    preservesState (freq_center v x ch) v ∧
    preservesState (freq_span v x ch) v ∧
    preservesState (power v x ch) v ∧
    preservesState (points v x ch) v ∧
    preservesState (sweep_type v x ch) v ∧
    preservesState (segm_data v x ch) v ∧
    preservesState (bandwidth v x ch) v ∧
    preservesState (trace_num v x ch) v ∧
    preservesState (window_layout v x ch) v ∧
    preservesState (parameter v x tr ch) v ∧
    preservesState (format v x tr ch) v ∧
    preservesState (cal_kit v x ch) v ∧
    preservesState (cal_meth v x ch) v ∧
    preservesState (cal_open v p1 ch) v ∧
    preservesState (cal_shor v p1 ch) v ∧
    preservesState (cal_load v p1 ch) v ∧
    preservesState (cal v x p1 ch) v ∧
    preservesState (cal_thru v p1 p2 ch) v ∧
    preservesState (cal_done v ch) v ∧
    preservesState (save_type v x) v ∧
    preservesState (mdir v x) v ∧
    preservesState (stor_stat v x) v ∧
    preservesState (load_stat v x) v ∧
    preservesState (calc_sdat v tr ch) v ∧
    preservesState (calc_fdat v tr ch) v ∧
    preservesState (calc_mfd v x ch) v ∧
    preservesState (init_cont v x ch) v ∧
    preservesState (trigger v ch) v ∧
    preservesState (limit_display v x tr ch) v ∧
    preservesState (limit_data v x tr ch) v ∧
    preservesState (preset v) v ∧
    close ⟨rm, some i⟩ = .ok (.pyNone, [.closeSession], ⟨rm, none⟩) := by
  refine ⟨?_, ?_, ?_, ?_, ?_, ?_, ?_, ?_, ?_, ?_, ?_, ?_, ?_, ?_, ?_, ?_, ?_, ?_, ?_,
    ?_, ?_, ?_, ?_, ?_, ?_, ?_, ?_, ?_, ?_, ?_, ?_, ?_, ?_, ?_, ?_, ?_, ?_⟩
  all_goals
    first
    | rfl
    | exact write_retNone_preserves _ _
    | exact instrWrite_preserves _ _
    | exact instrQuery_preserves _ _
    | exact calStep_preserves _ _
    | exact calThru_preserves _ _ _
    | exact ite_query_write_preserves _ _ _ _

/-- C9: sentinel detection is exact string equality with `"?"`.  Any string
`s` other than exactly `"?"` (for example `"? "`, `"??"`, or any string
merely containing `?`) takes the set branch of every get-or-set operation
and is interpolated verbatim into the written set command. -/
theorem sentinel_is_exact_string_equality (rm : Nat) (i : Instr) (s : String)
    (tr ch : Int) (h : s ≠ "?") :
    freq_start ⟨rm, some i⟩ (.pstr s) ch =
      .ok (.written, [.write (":SENS" ++ toString ch ++ ":FREQ:STAR " ++ s)],
           ⟨rm, some i⟩) ∧
    freq_stop ⟨rm, some i⟩ (.pstr s) ch =
      .ok (.written, [.write (":SENS" ++ toString ch ++ ":FREQ:STOP " ++ s)],
           ⟨rm, some i⟩) ∧
    freq_center ⟨rm, some i⟩ (.pstr s) ch =
      .ok (.written, [.write (":SENS" ++ toString ch ++ ":FREQ:CENT " ++ s)],
           ⟨rm, some i⟩) ∧
    freq_span ⟨rm, some i⟩ (.pstr s) ch =
      .ok (.written, [.write (":SENS" ++ toString ch ++ ":FREQ:SPAN " ++ s)],
           ⟨rm, some i⟩) ∧
    power ⟨rm, some i⟩ (.pstr s) ch =
      .ok (.written, [.write (":SOUR" ++ toString ch ++ ":POW " ++ s)], ⟨rm, some i⟩) ∧
    points ⟨rm, some i⟩ (.pstr s) ch =
      .ok (.written, [.write (":SENS" ++ toString ch ++ ":SWE:POIN " ++ s)],
           ⟨rm, some i⟩) ∧
    sweep_type ⟨rm, some i⟩ (.pstr s) ch =
      .ok (.written, [.write (":SENS" ++ toString ch ++ ":SWE:TYPE " ++ s)],
           ⟨rm, some i⟩) ∧
    segm_data ⟨rm, some i⟩ (.pstr s) ch =
      .ok (.written, [.write (":SENS" ++ toString ch ++ ":SEGM:DATA " ++ s)],
           ⟨rm, some i⟩) ∧
    bandwidth ⟨rm, some i⟩ (.pstr s) ch =
      .ok (.written, [.write (":SENS" ++ toString ch ++ ":BAND " ++ s)], ⟨rm, some i⟩) ∧
    trace_num ⟨rm, some i⟩ (.pstr s) ch =
      .ok (.written, [.write (":CALC" ++ toString ch ++ ":PAR:COUN " ++ s)],
           ⟨rm, some i⟩) ∧
    window_layout ⟨rm, some i⟩ (.pstr s) ch =
      .ok (.written, [.write (":DISP:WIND" ++ toString ch ++ ":SPL " ++ s)],
           ⟨rm, some i⟩) ∧
    parameter ⟨rm, some i⟩ (.pstr s) tr ch =
      .ok (.written,
        [.write (":CALC" ++ toString ch ++ ":PAR" ++ toString tr ++ ":DEF " ++ s)],
        ⟨rm, some i⟩) ∧
    format ⟨rm, some i⟩ (.pstr s) tr ch =
      .ok (.written,
        [.write (":CALC" ++ toString ch ++ ":TRAC" ++ toString tr ++ ":FORM " ++ s)],
        ⟨rm, some i⟩) ∧
    cal_kit ⟨rm, some i⟩ (.pstr s) ch =
      .ok (.written, [.write (":SENS" ++ toString ch ++ ":CORR:COLL:CKIT " ++ s)],
           ⟨rm, some i⟩) ∧
    save_type ⟨rm, some i⟩ (.pstr s) =
      .ok (.written, [.write (":MMEM:STOR:STYP " ++ s)], ⟨rm, some i⟩) ∧
    limit_display ⟨rm, some i⟩ (.pstr s) tr ch =
      .ok (.written,
        [.write (":CALC" ++ toString ch ++ ":TRAC" ++ toString tr ++ ":LIM:DISP " ++ s)],
        ⟨rm, some i⟩) ∧
    limit_data ⟨rm, some i⟩ (.pstr s) tr ch =
      .ok (.written,
        [.write (":CALC" ++ toString ch ++ ":TRAC" ++ toString tr ++ ":LIM:DATA " ++ s)],
        ⟨rm, some i⟩) := by
  have hb : pyEqLit (.pstr s) "?" = false := by simp [pyEqLit, h]
  simp [freq_start, freq_stop, freq_center, freq_span, power, points, sweep_type,
    segm_data, bandwidth, trace_num, window_layout, parameter, format, cal_kit, save_type,
    limit_display, limit_data, hb, pyIsStr, pyStr, instrWrite]

/-- C9 witness: the string `"??"`, which contains but is not exactly `"?"`,
takes the set branch of `freq_start` and is written verbatim. -/
theorem sentinel_is_exact_string_equality_witness :
    ("??" : String) ≠ "?" ∧
    freq_start ⟨0, some ⟨fun _ => "OK"⟩⟩ (.pstr "??") 1 =
      .ok (.written, [.write ":SENS1:FREQ:STAR ??"], ⟨0, some ⟨fun _ => "OK"⟩⟩) :=
  ⟨by decide,
   (sentinel_is_exact_string_equality 0 ⟨fun _ => "OK"⟩ "??" 1 1 (by decide)).1⟩

end PyVNA
